import Mathlib

/-!
Verification of the node-size debugger tool (`src/tool/node_size_debugger.cpp`).

The tool probes a fixed registry of ten STL container kinds for their
per-node storage overhead and renders the results with one of three
serialization strategies (simple, verbose, code generation), selected
from the command line.  Output is newline-delimited text; we embed each
serializer at the granularity of output lines (every logical line the
C++ code writes ends in a newline character), and `renderL` flattens a
line list back into the exact byte stream.

The probing capability (`node_size_debugger.hpp`) is an external
collaborator: it is modelled as an arbitrary function from container
kind to `debug_result`, which is exactly how the serializers consume it.
-/

namespace NodeSizeDebugger

/-- `exe_name` from the source, line 13. -/
def exe_name : String := "foonathan_memory_node_size_debugger"

/-- `exe_spaces` from the source, line 14: one space per character of `exe_name`. -/
def exe_spaces : String := String.mk (List.replicate exe_name.length ' ')

/-- The `VERSION` macro is supplied by the build system; its content is out
of scope (spec §1), so it is an uninterpreted constant string here. -/
def VERSION : String := "VERSION"

/-- Result model: one container name plus its alignment-to-size table, with
the two fields the serializers access (`container_name`, `node_sizes`); the
table is kept in its iteration order. -/
structure debug_result where
  container_name : String
  node_sizes : List (Nat × Nat)
deriving DecidableEq

/-- The ten debugger tags of the `debuggers` tuple (source lines 122-124). -/
inductive ContainerKind where
  | forward_list
  | list
  | set
  | multiset
  | unordered_set
  | unordered_multiset
  | map
  | multimap
  | unordered_map
  | unordered_multimap
deriving DecidableEq

/-- The registry: the fixed order of the `debuggers` tuple (source lines 122-124). -/
def registry : List ContainerKind :=
  [ContainerKind.forward_list, ContainerKind.list,
   ContainerKind.set, ContainerKind.multiset,
   ContainerKind.unordered_set, ContainerKind.unordered_multiset,
   ContainerKind.map, ContainerKind.multimap,
   ContainerKind.unordered_map, ContainerKind.unordered_multimap]

/-- `std::setw w` applied to a numeric item: right-justified in a field of
width `w`, filled with spaces on the left (the stream default). -/
def padw (w : Nat) (s : String) : String :=
  String.mk (List.replicate (w - s.length) ' ') ++ s

/-- `simple_serializer::operator()` (source lines 22-27), one string per line. -/
def simpleEmit (r : debug_result) : List String :=
  (r.container_name ++ ":") ::
    r.node_sizes.map (fun p => "\t" ++ Nat.repr p.1 ++ "=" ++ Nat.repr p.2)

/-- `verbose_serializer::operator()` (source lines 38-44), one string per line. -/
def verboseEmit (r : debug_result) : List String :=
  ("For container \x27" ++ r.container_name ++ "\x27:") ::
    r.node_sizes.map (fun p =>
      "\tWith an alignment of " ++ padw 2 (Nat.repr p.1) ++
        " is the base node size " ++ padw 2 (Nat.repr p.2) ++ ".")

/-- `code_serializer::tab` (source lines 104-109). -/
def tab (w : Nat) : String :=
  if w = 0 then "\t" else String.mk (List.replicate w ' ')

/-- `code_serializer::struct_name` (source lines 111-114). -/
def struct_name (container_name : String) : String :=
  container_name ++ "_node_size"

/-- `code_serializer::alignment` (source lines 116-119). -/
def alignmentExpr : String := "FOONATHAN_ALIGNOF(T)"

/-- One loop iteration of `code_serializer::operator()` (source lines 85-90):
the explicit specialization block emitted for one node-size entry. -/
def specLines (w : Nat) (container_name : String) (p : Nat × Nat) : List String :=
  ["",
   tab w ++ "template <>",
   tab w ++ "struct " ++ struct_name container_name ++ "<" ++ Nat.repr p.1 ++ ">",
   tab w ++ ": std::integral_constant<std::size_t, " ++ Nat.repr p.2 ++ ">",
   tab w ++ "\x7b\x7d;"]

/-- The text emitted before the specialization loop (source lines 82-84). -/
def codeEmitHead (w : Nat) (container_name : String) : List String :=
  ["namespace detail",
   "\x7b",
   tab w ++ "template <std::size_t Alignment>",
   tab w ++ "struct " ++ struct_name container_name ++ ";"]

/-- The text emitted after the specialization loop (source lines 91-96). -/
def codeEmitTail (container_name : String) : List String :=
  ["\x7d // namespace detail",
   "",
   "template <typename T>",
   "struct " ++ struct_name container_name,
   ": std::integral_constant<std::size_t,",
   "       detail::" ++ struct_name container_name ++ "<" ++ alignmentExpr ++
     ">::value + sizeof(T)>",
   "\x7b\x7d;",
   ""]

/-- `code_serializer::operator()` (source lines 60-97), one string per line. -/
def codeEmit (w : Nat) (r : debug_result) : List String :=
  codeEmitHead w r.container_name ++
    (r.node_sizes.map (specLines w r.container_name)).flatten ++
    codeEmitTail r.container_name

/-- The BEGIN marker line written by `code_serializer::prefix` (source line 57). -/
def beginMarker : String := "//=== BEGIN AUTOGENERATED SECTION ===//"

/-- The END marker line written by `code_serializer::suffix` (source line 101). -/
def endMarker : String := "//=== END AUTOGENERATED SECTION ===//"

/-- `code_serializer::prefix` (source lines 54-58): comment line, BEGIN
marker line, then a blank line. -/
def code_banner : List String :=
  ["// The following section was autogenerated by " ++ exe_name,
   beginMarker,
   ""]

/-- `code_serializer::suffix` (source lines 99-102). -/
def code_end : List String := [endMarker]

/-- `serialize` (source lines 141-147): prefix output, then one emit per
registry entry in registry order, then suffix output. -/
def serialize {α : Type} (pre : List α) (emitOne : debug_result → List α)
    (post : List α) (probe : ContainerKind → debug_result) : List α :=
  pre ++ (registry.map (fun k => emitOne (probe k))).flatten ++ post

/-- The strategy-method calls the dispatcher performs, as observable events. -/
inductive StratCall where
  | preludeCall
  | emitCall (r : debug_result)
  | finishCall
deriving DecidableEq

/-- The call trace of one `serialize` pass. -/
def serializeCalls (probe : ContainerKind → debug_result) : List StratCall :=
  serialize [StratCall.preludeCall] (fun r => [StratCall.emitCall r])
    [StratCall.finishCall] probe

/-- Output of `serialize(simple_serializer)` (prefix and suffix are no-ops). -/
def simpleOut (probe : ContainerKind → debug_result) : List String :=
  serialize [] simpleEmit [] probe

/-- Output of `serialize(verbose_serializer)` (prefix and suffix are no-ops). -/
def verboseOut (probe : ContainerKind → debug_result) : List String :=
  serialize [] verboseEmit [] probe

/-- Output of `serialize(code_serializer)` with tab width `w`. -/
def codeOut (w : Nat) (probe : ContainerKind → debug_result) : List String :=
  serialize code_banner (codeEmit w) code_end probe

/-- The three invalid-argument errors of the `--code` scanner. -/
inductive CodeErr where
  | tArg
  | outputfile
  | codeExtra
deriving DecidableEq

/-- The option name passed to `print_invalid_argument` for each error
(source lines 213, 219, 223). -/
def errName : CodeErr → String
  | CodeErr.tArg => "-t"
  | CodeErr.outputfile => "outputfile"
  | CodeErr.codeExtra => "--code"

/-- The test on the token after `-t` (source line 210): the token exists,
its first character is a decimal digit and its second character is the
terminating NUL, i.e. the token is a single decimal digit. -/
def isSingleDigit (x : String) : Bool :=
  match x.data with
  | [c] => c.isDigit
  | _ => false

/-- `cur[0][0] - '0'` (source line 211). -/
def digitVal (x : String) : Nat :=
  match x.data with
  | c :: _ => c.toNat - Char.toNat '0'
  | [] => 0

/-- The `--code` argument loop (source lines 205-224).  `op` abstracts
`std::ofstream::open` succeeding on a path; the state is the current tab
width and the opened output file, threaded exactly as in the loop. -/
def scanArgs (op : String → Bool) :
    List String → Nat → Option String → Except CodeErr (Nat × Option String)
  | [], w, file => Except.ok (w, file)
  | t :: rest, w, file =>
    if t = "-t" then
      match rest with
      | [] => Except.error CodeErr.tArg
      | x :: rest2 =>
        if isSingleDigit x then scanArgs op rest2 (digitVal x) file
        else Except.error CodeErr.tArg
    else
      match file with
      | none =>
        if op t then scanArgs op rest w (some t)
        else Except.error CodeErr.outputfile
      | some _ => Except.error CodeErr.codeExtra

/-- The hint line shared by both error printers (source lines 181, 188). -/
def tryHelpLine : String :=
  "Try \x27" ++ exe_name ++ " --help\x27 for more information."

/-- `print_invalid_argument` (source lines 185-190), as error-stream lines. -/
def invalidArgumentLines (option : String) : List String :=
  [exe_name ++ ": invalid argument for option -- \x27" ++ option ++ "\x27",
   tryHelpLine]

/-- Leading-dash stripping in `print_invalid_option` (source lines 178-179). -/
def stripDashes (option : String) : String :=
  String.mk (option.data.dropWhile (fun c => c = '-'))

/-- `print_invalid_option` (source lines 175-183), as error-stream lines. -/
def invalidOptionLines (option : String) : List String :=
  [exe_name ++ ": invalid option -- \x27" ++ stripDashes option ++ "\x27",
   tryHelpLine]

/-- `print_help` (source lines 149-168), one string per line. -/
def helpLines : List String :=
  ["Usage: " ++ exe_name ++ " [--version][--help]",
   "       " ++ exe_spaces ++ " [--simple][--verbose]",
   "       " ++ exe_spaces ++ " [--code [-t digit] [outputfile]]",
   "Obtains information about the internal node sizes of the STL containers.",
   "",
   "   --simple\tprints node sizes in the form \x27alignment=base-node-size\x27",
   "   --verbose\tprints node sizes in a more verbose form",
   "   --code\tgenerates C++ code to obtain the node size",
   "   --help\tdisplay this help and exit",
   "   --version\toutput version information and exit",
   "",
   "Options for code generation: ",
   "   -t\tfollowed by single digit specifying tab width, 0 uses \x27\\t\x27",
   "",
   "The base node size is the size of the node without the storage for the value type.",
   "Add \x27sizeof(value_type)\x27 to the base node size for the appropriate alignment to get the whole size.",
   "With no options prints base node sizes of all containers in a simple manner."]

/-- `print_version` (source lines 170-173). -/
def versionLines : List String :=
  [exe_name ++ " version " ++ VERSION]

/-- Everything externally observable about one run of `main`. -/
structure RunResult where
  exitCode : Nat
  stdOut : List String
  stdErr : List String
  fileOut : List String
  calls : List StratCall
deriving DecidableEq

/-- `main` (source lines 192-235).  `probe` abstracts the probing capability,
`op` abstracts opening an output file for truncating write.  The default tab
width is 4 and the default output target is standard output (lines 200-203). -/
def run (probe : ContainerKind → debug_result) (op : String → Bool)
    (args : List String) : RunResult :=
  match args with
  | [] =>
    { exitCode := 0, stdOut := simpleOut probe, stdErr := [], fileOut := [],
      calls := serializeCalls probe }
  | t :: rest =>
    if t = "--simple" then
      { exitCode := 0, stdOut := simpleOut probe, stdErr := [], fileOut := [],
        calls := serializeCalls probe }
    else if t = "--verbose" then
      { exitCode := 0, stdOut := verboseOut probe, stdErr := [], fileOut := [],
        calls := serializeCalls probe }
    else if t = "--code" then
      match scanArgs op rest 4 none with
      | Except.error e =>
        { exitCode := 2, stdOut := [], stdErr := invalidArgumentLines (errName e),
          fileOut := [], calls := [] }
      | Except.ok (w, none) =>
        { exitCode := 0, stdOut := codeOut w probe, stdErr := [], fileOut := [],
          calls := serializeCalls probe }
      | Except.ok (w, some _) =>
        { exitCode := 0, stdOut := [], stdErr := [], fileOut := codeOut w probe,
          calls := serializeCalls probe }
    else if t = "--help" then
      { exitCode := 0, stdOut := helpLines, stdErr := [], fileOut := [], calls := [] }
    else if t = "--version" then
      { exitCode := 0, stdOut := versionLines, stdErr := [], fileOut := [], calls := [] }
    else
      { exitCode := 2, stdOut := [], stdErr := invalidOptionLines t, fileOut := [],
        calls := [] }

/-- Flatten a line list back to the exact byte stream the program writes. -/
def renderL (lines : List String) : String :=
  String.join (lines.map (fun l => l ++ "\n"))

end NodeSizeDebugger

namespace NodeSizeDebugger

/-- Formalization of the spec sentence "right-padded (space-filled) to a
minimum display width" taken literally: fill characters appended on the
right.  Compared against `padw`, the embedding of `std::setw`. -/
def padRightSpec (w : Nat) (s : String) : String :=
  s ++ String.mk (List.replicate (w - s.length) ' ')

/-- A concrete probe outcome used to evaluate the theorems. -/
def probeW : ContainerKind → debug_result := fun _ => ⟨"list", [(8, 16)]⟩

/-- A concrete file-open oracle that always succeeds. -/
def opW : String → Bool := fun _ => true

/-- A concrete result with a one-entry table. -/
def rW : debug_result := ⟨"list", [(8, 16)]⟩

/-- A concrete result with single-digit alignment and size. -/
def rV : debug_result := ⟨"list", [(1, 5)]⟩

end NodeSizeDebugger

namespace NodeSizeDebugger

theorem tab_data (w : Nat) :
    (tab w).data = if w = 0 then ['\t'] else List.replicate w ' ' := by
  unfold tab; split <;> rfl

theorem tab_head? (w : Nat) :
    (tab w).data.head? = some '\t' ∨ (tab w).data.head? = some ' ' := by
  rw [tab_data]
  by_cases h : w = 0
  · left; simp [h]
  · right
    obtain ⟨n, rfl⟩ : ∃ n, w = n + 1 := ⟨w - 1, by omega⟩
    simp [List.replicate]

theorem tab_append_head (w : Nat) (s : String) :
    (tab w ++ s).data.head? = some '\t' ∨ (tab w ++ s).data.head? = some ' ' := by
  rw [String.data_append]
  rcases tab_head? w with h | h <;> rw [List.head?_append, h, Option.or_some]
  · exact Or.inl rfl
  · exact Or.inr rfl

theorem tab_ne_of_head {w : Nat} {s t : String} {c : Char}
    (h : t.data.head? = some c) (h1 : c ≠ '\t') (h2 : c ≠ ' ') :
    tab w ++ s ≠ t := by
  intro e
  rcases tab_append_head w s with h' | h' <;> rw [e, h] at h' <;> simp_all

theorem str_append_left_cancel {a b c : String} (h : a ++ b = a ++ c) : b = c := by
  apply String.ext
  have h2 := congrArg String.data h
  rw [String.data_append, String.data_append] at h2
  exact List.append_cancel_left h2

theorem tab_data_ne_nil (w : Nat) : (tab w).data ≠ [] := by
  rw [tab_data]
  by_cases h : w = 0
  · simp [h]
  · obtain ⟨n, rfl⟩ : ∃ n, w = n + 1 := ⟨w - 1, by omega⟩
    simp [List.replicate]

theorem tab_length_le {w : Nat} (hw : w ≤ 9) : (tab w).length ≤ 9 := by
  show (tab w).data.length ≤ 9
  rw [tab_data]
  by_cases h : w = 0
  · simp [h]
  · simp [h]; omega

theorem tab_length_pos (w : Nat) : 1 ≤ (tab w).length := by
  show 1 ≤ (tab w).data.length
  have h := tab_data_ne_nil w
  cases hd : (tab w).data with
  | nil => exact absurd hd h
  | cons c cs => simp

theorem tab_chain_ne {w : Nat} {x y : List Char} (c d : Char)
    (e : (tab w).data ++ x = (tab w).data ++ y)
    (hx : x.head? = some c) (hy : y.head? = some d) (hcd : c ≠ d) : False := by
  have h := List.append_cancel_left e
  subst h
  rw [hy] at hx
  exact hcd (Option.some.inj hx).symm

theorem codeEmit_no_slash (w : Nat) (r : debug_result) :
    ∀ l ∈ codeEmit w r, l.data.head? ≠ some '/' := by
  intro l hl
  rw [codeEmit] at hl
  rcases List.mem_append.1 hl with h | h
  · rcases List.mem_append.1 h with h | h
    · simp only [codeEmitHead, List.mem_cons, List.not_mem_nil, or_false] at h
      rcases h with rfl | rfl | rfl | rfl
      · decide
      · decide
      · simp only [String.data_append, List.head?_append, Option.or_eq_some]
        rcases tab_head? w with h' | h' <;> simp [h']
      · simp only [String.data_append, List.append_assoc, List.head?_append,
          Option.or_eq_some]
        rcases tab_head? w with h' | h' <;> simp [h']
    · obtain ⟨b, hb, hlb⟩ := List.mem_flatten.1 h
      obtain ⟨p, _, rfl⟩ := List.mem_map.1 hb
      simp only [specLines, List.mem_cons, List.not_mem_nil, or_false] at hlb
      rcases hlb with rfl | rfl | rfl | rfl | rfl
      · decide
      · simp only [String.data_append, List.head?_append, Option.or_eq_some]
        rcases tab_head? w with h' | h' <;> simp [h']
      · simp only [String.data_append, List.append_assoc, List.head?_append,
          Option.or_eq_some]
        rcases tab_head? w with h' | h' <;> simp [h']
      · simp only [String.data_append, List.append_assoc, List.head?_append,
          Option.or_eq_some]
        rcases tab_head? w with h' | h' <;> simp [h']
      · simp only [String.data_append, List.head?_append, Option.or_eq_some]
        rcases tab_head? w with h' | h' <;> simp [h']
  · simp only [codeEmitTail, List.mem_cons, List.not_mem_nil, or_false] at h
    have hs : ("struct " : String).data.head? = some 's' := rfl
    have hd : ("       detail::" : String).data.head? = some ' ' := rfl
    rcases h with rfl | rfl | rfl | rfl | rfl | rfl | rfl | rfl
    · decide
    · decide
    · decide
    · simp only [String.data_append, List.head?_append, hs]
      simp
    · decide
    · simp only [String.data_append, List.append_assoc, List.head?_append, hd]
      simp
    · decide
    · decide

theorem tgt_ne_empty (w : Nat) : tab w ++ "template <>" ≠ "" := by
  intro e
  have h := congrArg String.length e
  rw [String.length_append] at h
  have h1 := tab_length_pos w
  have h2 : ("template <>" : String).length = 11 := rfl
  have h3 : ("" : String).length = 0 := rfl
  omega

theorem tgt_ne_detail {w : Nat} (hw : w ≤ 9) (sname : String) :
    tab w ++ "template <>" ≠
      "       detail::" ++ sname ++ "<" ++ alignmentExpr ++ ">::value + sizeof(T)>" := by
  intro e
  have h := congrArg String.length e
  simp only [String.length_append] at h
  have h1 := tab_length_le hw
  have h2 : ("template <>" : String).length = 11 := rfl
  have h3 : ("       detail::" : String).length = 15 := rfl
  have h4 : ("<" : String).length = 1 := rfl
  have h5 : alignmentExpr.length = 20 := rfl
  have h6 : (">::value + sizeof(T)>" : String).length = 21 := rfl
  omega

theorem specLines_count (w : Nat) (cname : String) (p : Nat × Nat) :
    (specLines w cname p).count (tab w ++ "template <>") = 1 := by
  rw [specLines]
  rw [List.count_cons_of_ne (tgt_ne_empty w)]
  rw [List.count_cons_self]
  rw [List.count_cons_of_ne ?hS, List.count_cons_of_ne ?hI, List.count_cons_of_ne ?hB,
    List.count_nil]
  case hS =>
    intro e
    have h := congrArg String.data e
    simp only [String.data_append, List.append_assoc] at h
    exact tab_chain_ne 't' 's' h rfl rfl (by decide)
  case hI =>
    intro e
    have h := congrArg String.data e
    simp only [String.data_append, List.append_assoc] at h
    exact tab_chain_ne 't' ':' h rfl rfl (by decide)
  case hB =>
    intro e
    have h := congrArg String.data e
    simp only [String.data_append, List.append_assoc] at h
    exact tab_chain_ne 't' '\x7b' h rfl rfl (by decide)

theorem flatten_blocks_count (w : Nat) (cname : String) (pairs : List (Nat × Nat)) :
    ((pairs.map (specLines w cname)).flatten).count (tab w ++ "template <>")
      = pairs.length := by
  induction pairs with
  | nil => simp
  | cons p ps ih =>
    rw [List.map_cons, List.flatten_cons, List.count_append, specLines_count, ih,
      List.length_cons]
    omega

theorem codeEmitHead_count (w : Nat) (cname : String) :
    (codeEmitHead w cname).count (tab w ++ "template <>") = 0 := by
  rw [codeEmitHead]
  rw [List.count_cons_of_ne ?h1, List.count_cons_of_ne ?h2, List.count_cons_of_ne ?h3,
    List.count_cons_of_ne ?h4, List.count_nil]
  case h1 => exact tab_ne_of_head rfl (by decide) (by decide)
  case h2 => exact tab_ne_of_head rfl (by decide) (by decide)
  case h3 =>
    intro e
    exact absurd (str_append_left_cancel e) (by decide)
  case h4 =>
    intro e
    have h := congrArg String.data e
    simp only [String.data_append, List.append_assoc] at h
    exact tab_chain_ne 't' 's' h rfl rfl (by decide)

theorem codeEmitTail_count {w : Nat} (hw : w ≤ 9) (cname : String) :
    (codeEmitTail cname).count (tab w ++ "template <>") = 0 := by
  rw [codeEmitTail]
  rw [List.count_cons_of_ne ?t1, List.count_cons_of_ne ?t2, List.count_cons_of_ne ?t3,
    List.count_cons_of_ne ?t4, List.count_cons_of_ne ?t5, List.count_cons_of_ne ?t6,
    List.count_cons_of_ne ?t7, List.count_cons_of_ne ?t8, List.count_nil]
  case t1 => exact tab_ne_of_head rfl (by decide) (by decide)
  case t2 => exact tgt_ne_empty w
  case t3 => exact tab_ne_of_head rfl (by decide) (by decide)
  case t4 => exact tab_ne_of_head rfl (by decide) (by decide)
  case t5 => exact tab_ne_of_head rfl (by decide) (by decide)
  case t6 => exact tgt_ne_detail hw (struct_name cname)
  case t7 => exact tab_ne_of_head rfl (by decide) (by decide)
  case t8 => exact tgt_ne_empty w

theorem codeEmit_count {w : Nat} (hw : w ≤ 9) (r : debug_result) :
    (codeEmit w r).count (tab w ++ "template <>") = r.node_sizes.length := by
  rw [codeEmit, List.count_append, List.count_append, codeEmitHead_count,
    codeEmitTail_count hw, flatten_blocks_count]
  omega

theorem flatten_no_marker (w : Nat) (probe : ContainerKind → debug_result)
    (m : String) (hm : m.data.head? = some '/') :
    ((registry.map fun k => codeEmit w (probe k)).flatten).count m = 0 := by
  rw [List.count_eq_zero]
  intro hmem
  obtain ⟨b, hb, hlb⟩ := List.mem_flatten.1 hmem
  obtain ⟨k, _, rfl⟩ := List.mem_map.1 hb
  exact codeEmit_no_slash w (probe k) m hlb hm

theorem chain_ne_two_units {w : Nat} {x : List Char} {s : String} (c : Char)
    (e : (tab w).data ++ x = (tab w).data ++ ((tab w).data ++ s.data))
    (hx : x.head? = some c) (hc1 : c ≠ '\t') (hc2 : c ≠ ' ') : False := by
  have h := List.append_cancel_left e
  rw [h, List.head?_append] at hx
  rcases tab_head? w with h' | h' <;> rw [h', Option.or_some] at hx
  · exact hc1 (Option.some.inj hx).symm
  · exact hc2 (Option.some.inj hx).symm

theorem toDigitsCore_len (b : Nat) (hb : 2 ≤ b) :
    ∀ (fuel n : Nat) (ds : List Char), n < fuel →
      ds.length + 1 ≤ (Nat.toDigitsCore b fuel n ds).length := by
  intro fuel
  induction fuel with
  | zero => intro n ds h; omega
  | succ f ih =>
    intro n ds h
    rw [Nat.toDigitsCore]
    by_cases h0 : n / b = 0
    · simp [h0]
    · rw [if_neg h0]
      have h1 : 0 < n := by
        rcases Nat.eq_zero_or_pos n with rfl | h1
        · exact absurd (Nat.zero_div b) h0
        · exact h1
      have h2 : n / b < n := Nat.div_lt_self h1 (by omega)
      have h3 := ih (n / b) (Nat.digitChar (n % b) :: ds) (by omega)
      simp only [List.length_cons] at h3
      omega

theorem repr_length_of_ge_ten {n : Nat} (h : 10 ≤ n) : 2 ≤ (Nat.repr n).length := by
  show 2 ≤ (Nat.toDigits 10 n).asString.length
  have hl : (Nat.toDigits 10 n).asString.length = (Nat.toDigits 10 n).length := rfl
  rw [hl, Nat.toDigits, Nat.toDigitsCore]
  have h0 : ¬ (n / 10 = 0) := by
    intro h0
    have := Nat.div_lt_iff_lt_mul (show 0 < 10 by omega) |>.1 (show n / 10 < 1 by omega)
    omega
  rw [if_neg h0]
  have h2 : n / 10 < n := Nat.div_lt_self (by omega) (by omega)
  have h3 := toDigitsCore_len 10 (by omega) n (n / 10)
    [Nat.digitChar (n % 10)] (by omega)
  simp only [List.length_cons, List.length_nil] at h3
  omega

theorem padw_eq_of_len {s : String} (h : 2 ≤ s.length) : padw 2 s = s := by
  apply String.ext
  simp [padw, String.data_append, Nat.sub_eq_zero_of_le h]

end NodeSizeDebugger

namespace NodeSizeDebugger

/-- Claim C1: for every run in Plain, Verbose or CodeGen mode, the dispatcher
invokes the active strategy with prefix once, then emit once per registry
entry with the probe's result, in the fixed registry order (forward_list,
list, set, multiset, unordered_set, unordered_multiset, map, multimap,
unordered_map, unordered_multimap), then suffix once. -/
theorem C1_dispatch_call_order (probe : ContainerKind → debug_result)
    (op : String → Bool) (rest : List String) (w : Nat) (f : Option String)
    (hcode : scanArgs op rest 4 none = Except.ok (w, f)) :
    (run probe op []).calls = serializeCalls probe ∧
    (run probe op ("--simple" :: rest)).calls = serializeCalls probe ∧
    (run probe op ("--verbose" :: rest)).calls = serializeCalls probe ∧
    (run probe op ("--code" :: rest)).calls = serializeCalls probe ∧
    serializeCalls probe =
      [StratCall.preludeCall,
       StratCall.emitCall (probe ContainerKind.forward_list),
       StratCall.emitCall (probe ContainerKind.list),
       StratCall.emitCall (probe ContainerKind.set),
       StratCall.emitCall (probe ContainerKind.multiset),
       StratCall.emitCall (probe ContainerKind.unordered_set),
       StratCall.emitCall (probe ContainerKind.unordered_multiset),
       StratCall.emitCall (probe ContainerKind.map),
       StratCall.emitCall (probe ContainerKind.multimap),
       StratCall.emitCall (probe ContainerKind.unordered_map),
       StratCall.emitCall (probe ContainerKind.unordered_multimap),
       StratCall.finishCall] := by
  refine ⟨?_, ?_, ?_, ?_, ?_⟩
  · simp [run]
  · simp [run]
  · simp [run]
  · rcases f with _ | path <;> simp [run, hcode]
  · simp [serializeCalls, serialize, registry]

/-- Witness for C1 at a concrete probe, oracle and argument list. -/
theorem C1_dispatch_call_order_witness :
    (run probeW opW []).calls = serializeCalls probeW ∧
    (run probeW opW ["--simple"]).calls = serializeCalls probeW ∧
    (run probeW opW ["--verbose"]).calls = serializeCalls probeW ∧
    (run probeW opW ["--code"]).calls = serializeCalls probeW ∧
    serializeCalls probeW =
      [StratCall.preludeCall,
       StratCall.emitCall (probeW ContainerKind.forward_list),
       StratCall.emitCall (probeW ContainerKind.list),
       StratCall.emitCall (probeW ContainerKind.set),
       StratCall.emitCall (probeW ContainerKind.multiset),
       StratCall.emitCall (probeW ContainerKind.unordered_set),
       StratCall.emitCall (probeW ContainerKind.unordered_multiset),
       StratCall.emitCall (probeW ContainerKind.map),
       StratCall.emitCall (probeW ContainerKind.multimap),
       StratCall.emitCall (probeW ContainerKind.unordered_map),
       StratCall.emitCall (probeW ContainerKind.unordered_multimap),
       StratCall.finishCall] :=
  C1_dispatch_call_order probeW opW [] 4 none rfl

/-- Claim C2, counterexample: with width 5 the specialization body line
(nested two levels deep in the generated C++: inside a struct inside the
namespace) carries exactly one five-space unit, and no emitted line starts
with two units (ten spaces), refuting the claimed 2x-unit indentation. -/
theorem C2_two_level_indent_counterexample :
    (codeEmit 5 ⟨"list", [(8, 16)]⟩).contains
      "     : std::integral_constant<std::size_t, 16>" = true ∧
    (codeEmit 5 ⟨"list", [(8, 16)]⟩).all
      (fun l => !(("          ".data).isPrefixOf l.data)) = true ∧
    tab 5 ++ tab 5 = "          " := by
  refine ⟨by decide, by decide, by decide⟩

/-- Claim C2 as amended: the indentation unit is one tab character for
width 0 and exactly `w` spaces for width 1-9, but indentation does not nest
additively: every line of a specialization block inside the nested scope is
indented by exactly one unit, and no such line starts with two units. -/
theorem C2_indentation_amended (w : Nat) (r : debug_result) (p : Nat × Nat)
    (hp : p ∈ r.node_sizes) :
    tab 0 = "\t" ∧
    (1 ≤ w → tab w = String.mk (List.replicate w ' ')) ∧
    (∀ l ∈ specLines w r.container_name p, l ∈ codeEmit w r) ∧
    (∀ l ∈ specLines w r.container_name p,
      l = "" ∨ ∃ s, l = tab w ++ s ∧ s.data.head? ≠ some ' ' ∧ s.data.head? ≠ some '\t') ∧
    (∀ l ∈ specLines w r.container_name p, ∀ s, l ≠ tab w ++ (tab w ++ s)) := by
  refine ⟨rfl, ?_, ?_, ?_, ?_⟩
  · intro hw
    rw [tab, if_neg (by omega)]
  · intro l hl
    rw [codeEmit]
    refine List.mem_append.2 (Or.inl (List.mem_append.2 (Or.inr ?_)))
    exact List.mem_flatten.2 ⟨_, List.mem_map_of_mem _ hp, hl⟩
  · intro l hl
    simp only [specLines, List.mem_cons, List.not_mem_nil, or_false] at hl
    rcases hl with rfl | rfl | rfl | rfl | rfl
    · exact Or.inl rfl
    · exact Or.inr ⟨"template <>", rfl, by decide, by decide⟩
    · refine Or.inr ⟨"struct " ++ (struct_name r.container_name ++ ("<" ++ (Nat.repr p.1 ++ ">"))),
        by simp [String.append_assoc], ?_, ?_⟩
      · have hh : ("struct " ++ (struct_name r.container_name ++ ("<" ++ (Nat.repr p.1 ++ ">")))).data.head?
            = some 's' := rfl
        rw [hh]; decide
      · have hh : ("struct " ++ (struct_name r.container_name ++ ("<" ++ (Nat.repr p.1 ++ ">")))).data.head?
            = some 's' := rfl
        rw [hh]; decide
    · refine Or.inr ⟨": std::integral_constant<std::size_t, " ++ (Nat.repr p.2 ++ ">"),
        by simp [String.append_assoc], ?_, ?_⟩
      · have hh : (": std::integral_constant<std::size_t, " ++ (Nat.repr p.2 ++ ">")).data.head?
            = some ':' := rfl
        rw [hh]; decide
      · have hh : (": std::integral_constant<std::size_t, " ++ (Nat.repr p.2 ++ ">")).data.head?
            = some ':' := rfl
        rw [hh]; decide
    · exact Or.inr ⟨"\x7b\x7d;", rfl, by decide, by decide⟩
  · intro l hl s e
    simp only [specLines, List.mem_cons, List.not_mem_nil, or_false] at hl
    rcases hl with rfl | rfl | rfl | rfl | rfl
    · have h := congrArg String.length e
      simp only [String.length_append] at h
      have h1 := tab_length_pos w
      have h2 : ("" : String).length = 0 := rfl
      omega
    · have h := congrArg String.data e
      simp only [String.data_append, List.append_assoc] at h
      exact chain_ne_two_units 't' h rfl (by decide) (by decide)
    · have h := congrArg String.data e
      simp only [String.data_append, List.append_assoc] at h
      exact chain_ne_two_units 's' h rfl (by decide) (by decide)
    · have h := congrArg String.data e
      simp only [String.data_append, List.append_assoc] at h
      exact chain_ne_two_units ':' h rfl (by decide) (by decide)
    · have h := congrArg String.data e
      simp only [String.data_append, List.append_assoc] at h
      exact chain_ne_two_units '\x7b' h rfl (by decide) (by decide)

/-- Witness for the amended C2 at width 5 on a one-entry result. -/
theorem C2_indentation_amended_witness :
    tab 0 = "\t" ∧
    (1 ≤ 5 → tab 5 = String.mk (List.replicate 5 ' ')) ∧
    (∀ l ∈ specLines 5 rW.container_name (8, 16), l ∈ codeEmit 5 rW) ∧
    (∀ l ∈ specLines 5 rW.container_name (8, 16),
      l = "" ∨ ∃ s, l = tab 5 ++ s ∧ s.data.head? ≠ some ' ' ∧ s.data.head? ≠ some '\t') ∧
    (∀ l ∈ specLines 5 rW.container_name (8, 16), ∀ s, l ≠ tab 5 ++ (tab 5 ++ s)) :=
  C2_indentation_amended 5 rW (8, 16) (by decide)

/-- Claim C3, counterexample: `std::setw(2)` right-justifies, so the
single-digit numbers 1 and 5 are padded on the left; the output line
differs from the one built with the claimed right-padding. -/
theorem C3_right_padding_counterexample :
    verboseEmit ⟨"list", [(1, 5)]⟩ =
      ["For container \x27list\x27:",
       "\tWith an alignment of  1 is the base node size  5."] ∧
    verboseEmit ⟨"list", [(1, 5)]⟩ ≠
      ["For container \x27list\x27:",
       "\tWith an alignment of " ++ padRightSpec 2 (Nat.repr 1) ++
         " is the base node size " ++ padRightSpec 2 (Nat.repr 5) ++ "."] := by
  refine ⟨by decide, by decide⟩

/-- Claim C3 as amended: in Verbose mode both numbers are left-padded with
spaces (right-justified, as `std::setw` does) to a minimum display width of
2 characters; values of 10 or more are printed in full with no padding. -/
theorem C3_padding_amended (r : debug_result) (s : String) (n : Nat)
    (h2 : 2 ≤ s.length) (h10 : 10 ≤ n) :
    verboseEmit r =
      ("For container \x27" ++ r.container_name ++ "\x27:") ::
        r.node_sizes.map (fun p =>
          "\tWith an alignment of " ++ padw 2 (Nat.repr p.1) ++
            " is the base node size " ++ padw 2 (Nat.repr p.2) ++ ".") ∧
    (∀ t : String, ∃ k, padw 2 t = String.mk (List.replicate k ' ') ++ t) ∧
    padw 2 s = s ∧
    2 ≤ (Nat.repr n).length ∧
    padw 2 (Nat.repr n) = Nat.repr n :=
  ⟨rfl, fun t => ⟨2 - t.length, rfl⟩, padw_eq_of_len h2,
    repr_length_of_ge_ten h10, padw_eq_of_len (repr_length_of_ge_ten h10)⟩

/-- Witness for the amended C3 at a two-character string and the value 42. -/
theorem C3_padding_amended_witness :
    verboseEmit rV =
      ("For container \x27" ++ rV.container_name ++ "\x27:") ::
        rV.node_sizes.map (fun p =>
          "\tWith an alignment of " ++ padw 2 (Nat.repr p.1) ++
            " is the base node size " ++ padw 2 (Nat.repr p.2) ++ ".") ∧
    (∀ t : String, ∃ k, padw 2 t = String.mk (List.replicate k ' ') ++ t) ∧
    padw 2 "10" = "10" ∧
    2 ≤ (Nat.repr 42).length ∧
    padw 2 (Nat.repr 42) = Nat.repr 42 :=
  C3_padding_amended rV "10" 42 (by decide) (by decide)

end NodeSizeDebugger

namespace NodeSizeDebugger

/-- Claim C4: in code mode, scanning the remaining tokens left-to-right, a
`-t` token not immediately followed by exactly one single-decimal-digit
token is an invalid-argument error naming `-t`; the first non-option token
is treated as an output file path (failure to open: error naming
outputfile); any further unrecognized token after a file path has been
consumed is an error naming `--code`; each error exits with code 2. -/
theorem C4_code_argument_errors (probe : ContainerKind → debug_result)
    (op : String → Bool) (x tok path : String) (rest toks : List String)
    (w : Nat) (f : Option String) (e : CodeErr)
    (hx : isSingleDigit x = false) (htok : tok ≠ "-t")
    (herr : scanArgs op toks 4 none = Except.error e) :
    scanArgs op ("-t" :: x :: rest) w f = Except.error CodeErr.tArg ∧
    scanArgs op ["-t"] w f = Except.error CodeErr.tArg ∧
    (op tok = true → scanArgs op (tok :: rest) w none = scanArgs op rest w (some tok)) ∧
    (op tok = false → scanArgs op (tok :: rest) w none = Except.error CodeErr.outputfile) ∧
    scanArgs op (tok :: rest) w (some path) = Except.error CodeErr.codeExtra ∧
    run probe op ("--code" :: toks) =
      { exitCode := 2, stdOut := [], stdErr := invalidArgumentLines (errName e),
        fileOut := [], calls := [] } ∧
    errName CodeErr.tArg = "-t" ∧ errName CodeErr.outputfile = "outputfile" ∧
    errName CodeErr.codeExtra = "--code" := by
  refine ⟨?_, ?_, ?_, ?_, ?_, ?_, rfl, rfl, rfl⟩
  · simp [scanArgs, hx]
  · simp [scanArgs]
  · intro hop; rw [scanArgs.eq_def]; simp [htok, hop]
  · intro hop; rw [scanArgs.eq_def]; simp [htok, hop]
  · rw [scanArgs.eq_def]; simp [htok]
  · simp [run, herr]

/-- Witness for C4: `-t ab`, `-t` at end of input, a path token, and an
extra token after the path, with the run exiting with code 2. -/
theorem C4_code_argument_errors_witness :
    scanArgs opW ["-t", "ab"] 4 none = Except.error CodeErr.tArg ∧
    scanArgs opW ["-t"] 4 none = Except.error CodeErr.tArg ∧
    (opW "out" = true → scanArgs opW ["out"] 4 none = scanArgs opW [] 4 (some "out")) ∧
    (opW "out" = false → scanArgs opW ["out"] 4 none = Except.error CodeErr.outputfile) ∧
    scanArgs opW ["out"] 4 (some "p") = Except.error CodeErr.codeExtra ∧
    run probeW opW ["--code", "-t"] =
      { exitCode := 2, stdOut := [], stdErr := invalidArgumentLines (errName CodeErr.tArg),
        fileOut := [], calls := [] } ∧
    errName CodeErr.tArg = "-t" ∧ errName CodeErr.outputfile = "outputfile" ∧
    errName CodeErr.codeExtra = "--code" :=
  C4_code_argument_errors probeW opW "ab" "out" "p" [] ["-t"] 4 none CodeErr.tArg
    (by decide) (by decide) rfl

/-- Claim C5: for every probe outcome, CodeGen output contains the BEGIN
marker line exactly once and the END marker line exactly once, with one
generative block per container kind strictly between them in registry
order; the prefix is a one-line identifying comment, the BEGIN marker line
and a blank line, and the suffix is the END marker line. -/
theorem C5_codegen_markers (probe : ContainerKind → debug_result)
    (op : String → Bool) (rest : List String) (w : Nat)
    (h : scanArgs op rest 4 none = Except.ok (w, none)) :
    (run probe op ("--code" :: rest)).stdOut.count beginMarker = 1 ∧
    (run probe op ("--code" :: rest)).stdOut.count endMarker = 1 ∧
    (run probe op ("--code" :: rest)).stdOut =
      code_banner ++ (registry.map fun k => codeEmit w (probe k)).flatten ++ code_end ∧
    code_banner =
      ["// The following section was autogenerated by " ++ exe_name, beginMarker, ""] ∧
    code_end = [endMarker] := by
  have hout : (run probe op ("--code" :: rest)).stdOut = codeOut w probe := by
    simp [run, h]
  refine ⟨?_, ?_, ?_, rfl, rfl⟩
  · rw [hout, codeOut, serialize, List.count_append, List.count_append,
      flatten_no_marker w probe beginMarker rfl]
    have hb : code_banner.count beginMarker = 1 := by decide
    have he : code_end.count beginMarker = 0 := by decide
    omega
  · rw [hout, codeOut, serialize, List.count_append, List.count_append,
      flatten_no_marker w probe endMarker rfl]
    have hb : code_banner.count endMarker = 0 := by decide
    have he : code_end.count endMarker = 1 := by decide
    omega
  · rw [hout]; rfl

/-- Witness for C5 at a concrete probe with default width. -/
theorem C5_codegen_markers_witness :
    (run probeW opW ["--code"]).stdOut.count beginMarker = 1 ∧
    (run probeW opW ["--code"]).stdOut.count endMarker = 1 ∧
    (run probeW opW ["--code"]).stdOut =
      code_banner ++ (registry.map fun k => codeEmit 4 (probeW k)).flatten ++ code_end ∧
    code_banner =
      ["// The following section was autogenerated by " ++ exe_name, beginMarker, ""] ∧
    code_end = [endMarker] :=
  C5_codegen_markers probeW opW [] 4 rfl

/-- Claim C6: for every width 0-9 and every result the probe returns, the
CodeGen block contains exactly one explicit specialization per node-size
entry, in the same order as the result's entries, each binding the literal
alignment value to a compile-time constant equal to the base node size. -/
theorem C6_specializations_per_entry (w : Nat) (r : debug_result) (hw : w ≤ 9) :
    codeEmit w r =
      codeEmitHead w r.container_name ++
        (r.node_sizes.map (specLines w r.container_name)).flatten ++
        codeEmitTail r.container_name ∧
    (∀ p : Nat × Nat, specLines w r.container_name p =
      ["",
       tab w ++ "template <>",
       tab w ++ "struct " ++ struct_name r.container_name ++ "<" ++ Nat.repr p.1 ++ ">",
       tab w ++ ": std::integral_constant<std::size_t, " ++ Nat.repr p.2 ++ ">",
       tab w ++ "\x7b\x7d;"]) ∧
    (codeEmit w r).count (tab w ++ "template <>") = r.node_sizes.length :=
  ⟨rfl, fun _ => rfl, codeEmit_count hw r⟩

/-- Witness for C6 at width 4 on a one-entry result. -/
theorem C6_specializations_per_entry_witness :
    codeEmit 4 rW =
      codeEmitHead 4 rW.container_name ++
        (rW.node_sizes.map (specLines 4 rW.container_name)).flatten ++
        codeEmitTail rW.container_name ∧
    (∀ p : Nat × Nat, specLines 4 rW.container_name p =
      ["",
       tab 4 ++ "template <>",
       tab 4 ++ "struct " ++ struct_name rW.container_name ++ "<" ++ Nat.repr p.1 ++ ">",
       tab 4 ++ ": std::integral_constant<std::size_t, " ++ Nat.repr p.2 ++ ">",
       tab 4 ++ "\x7b\x7d;"]) ∧
    (codeEmit 4 rW).count (tab 4 ++ "template <>") = rW.node_sizes.length :=
  C6_specializations_per_entry 4 rW (by decide)

end NodeSizeDebugger

namespace NodeSizeDebugger

/-- Claim C7: any unrecognized first token exits with code 2 and writes to
the error stream a message containing the offending token with its leading
dashes stripped, together with a hint to consult `--help`. -/
theorem C7_invalid_option_exit (probe : ContainerKind → debug_result)
    (op : String → Bool) (t : String) (rest : List String)
    (h1 : t ≠ "--simple") (h2 : t ≠ "--verbose") (h3 : t ≠ "--code")
    (h4 : t ≠ "--help") (h5 : t ≠ "--version") :
    run probe op (t :: rest) =
      { exitCode := 2, stdOut := [], stdErr := invalidOptionLines t,
        fileOut := [], calls := [] } ∧
    invalidOptionLines t =
      [exe_name ++ ": invalid option -- \x27" ++ stripDashes t ++ "\x27",
       tryHelpLine] ∧
    renderL (invalidOptionLines t) =
      (exe_name ++ ": invalid option -- \x27") ++ stripDashes t ++
        ("\x27\n" ++ tryHelpLine ++ "\n") ∧
    tryHelpLine = ("Try \x27" ++ exe_name ++ " ") ++ "--help" ++
      "\x27 for more information." := by
  refine ⟨?_, rfl, ?_, by decide⟩
  · simp [run, h1, h2, h3, h4, h5]
  · apply String.ext
    simp [renderL, invalidOptionLines, String.join, String.data_append,
      List.append_assoc]

/-- Witness for C7 at the token `--bogus`. -/
theorem C7_invalid_option_exit_witness :
    run probeW opW ["--bogus"] =
      { exitCode := 2, stdOut := [], stdErr := invalidOptionLines "--bogus",
        fileOut := [], calls := [] } ∧
    invalidOptionLines "--bogus" =
      [exe_name ++ ": invalid option -- \x27" ++ stripDashes "--bogus" ++ "\x27",
       tryHelpLine] ∧
    renderL (invalidOptionLines "--bogus") =
      (exe_name ++ ": invalid option -- \x27") ++ stripDashes "--bogus" ++
        ("\x27\n" ++ tryHelpLine ++ "\n") ∧
    tryHelpLine = ("Try \x27" ++ exe_name ++ " ") ++ "--help" ++
      "\x27 for more information." :=
  C7_invalid_option_exit probeW opW "--bogus" []
    (by decide) (by decide) (by decide) (by decide) (by decide)

/-- Claim C8: for every probe outcome, running with no arguments produces a
run byte-identical to running with `--simple` as the first token. -/
theorem C8_no_args_equals_simple (probe : ContainerKind → debug_result)
    (op : String → Bool) (rest : List String) :
    run probe op ("--simple" :: rest) = run probe op [] ∧
    renderL (run probe op ("--simple" :: rest)).stdOut
      = renderL (run probe op []).stdOut := by
  constructor <;> simp [run]

/-- Claim C9: whenever a `--code` invocation fails with an invalid-argument
error, the run exits with code 2, no strategy method was invoked, and no
generated output was emitted to standard output or the output file. -/
theorem C9_no_output_on_error (probe : ContainerKind → debug_result)
    (op : String → Bool) (rest : List String) (e : CodeErr)
    (h : scanArgs op rest 4 none = Except.error e) :
    (run probe op ("--code" :: rest)).exitCode = 2 ∧
    (run probe op ("--code" :: rest)).calls = [] ∧
    (run probe op ("--code" :: rest)).stdOut = [] ∧
    (run probe op ("--code" :: rest)).fileOut = [] := by
  refine ⟨?_, ?_, ?_, ?_⟩ <;> simp [run, h]

/-- Witness for C9 at the failing argument list `--code -t`. -/
theorem C9_no_output_on_error_witness :
    (run probeW opW ["--code", "-t"]).exitCode = 2 ∧
    (run probeW opW ["--code", "-t"]).calls = [] ∧
    (run probeW opW ["--code", "-t"]).stdOut = [] ∧
    (run probeW opW ["--code", "-t"]).fileOut = [] :=
  C9_no_output_on_error probeW opW ["-t"] CodeErr.tArg rfl

/-- Claim C10: for every mode resolved from a first token other than
`--code` (including no arguments at all), the tokens after the first are
ignored: two argument vectors agreeing on their first token produce
identical runs (same output and same exit status). -/
theorem C10_trailing_tokens_ignored (probe : ContainerKind → debug_result)
    (op : String → Bool) (a1 a2 : List String)
    (h1 : a1.head? = a2.head?) (h2 : a1.head? ≠ some "--code") :
    run probe op a1 = run probe op a2 := by
  cases a1 with
  | nil =>
    cases a2 with
    | nil => rfl
    | cons t r => simp at h1
  | cons t r =>
    cases a2 with
    | nil => simp at h1
    | cons u s =>
      simp only [List.head?_cons, Option.some.injEq] at h1
      subst h1
      have ht : t ≠ "--code" := by
        simp only [List.head?_cons, ne_eq, Option.some.injEq] at h2
        exact h2
      by_cases h3 : t = "--simple"
      · simp [run, h3]
      · by_cases h4 : t = "--verbose"
        · simp [run, h3, h4]
        · by_cases h5 : t = "--help"
          · simp [run, h3, h4, h5, ht]
          · by_cases h6 : t = "--version"
            · simp [run, h3, h4, h5, h6, ht]
            · simp [run, h3, h4, h5, h6, ht]

/-- Witness for C10: `--verbose` with and without a trailing token. -/
theorem C10_trailing_tokens_ignored_witness :
    run probeW opW ["--verbose", "extra"] = run probeW opW ["--verbose"] :=
  C10_trailing_tokens_ignored probeW opW ["--verbose", "extra"] ["--verbose"]
    rfl (by decide)

end NodeSizeDebugger
